import Mathlib

/-
Verification of the streamlit-downloader frontend component
(src/streamlit_downloader/frontend/src/Downloader.tsx).

The component is browser-side glue: on mount it builds a Blob from the
supplied data, creates an object URL, clicks a synthesized hidden anchor,
revokes the URL and reports the value 1 to the Streamlit host; it renders
an invisible zero-sized div and asks the host for frame height 0.

We embed the browser and Streamlit APIs as pure state transformers over an
explicit browser state that records the live object-URL table, the anchors
the component put into document.body, and a trace of every API call made.
Each Lean definition below mirrors one line of the TypeScript source.
-/

namespace StreamlitDownloader

/-- A binary blob as built by the Blob constructor in the source:
the list of parts passed to it and the MIME type from the options object
(line 26 of Downloader.tsx). -/
structure Blob where
  parts : List String
  type : String
deriving DecidableEq, Repr

/-- An anchor (`a`) DOM element. `id` models DOM node identity (each call to
document.createElement returns a fresh node); `href` and `download` are the
two attributes the source sets on it. -/
structure Anchor where
  id : Nat
  href : String
  download : String
deriving DecidableEq, Repr

/-- One observable browser/Streamlit API call made by the component. -/
inductive Event where
  | blobNew (b : Blob)
  | createObjectURL (url : String)
  | createElement (tag : String) (id : Nat)
  | appendChild (a : Anchor)
  | click (a : Anchor)
  | removeChild (a : Anchor)
  | revokeObjectURL (url : String)
  | setComponentValue (v : Int)
  | setFrameHeight (h : Int)
deriving DecidableEq, Repr

/-- The browser state the component can affect: a counter providing fresh
object URLs, a counter providing fresh DOM node identities, the table of
live object URLs, the anchors currently in document.body, and the trace of
API calls made so far. -/
structure BrowserState where
  urlCounter : Nat
  elemCounter : Nat
  objectURLs : List (String × Blob)
  body : List Anchor
  trace : List Event
deriving DecidableEq, Repr

/-- The browser state before anything ran. -/
def emptyState : BrowserState :=
  { urlCounter := 0, elemCounter := 0, objectURLs := [], body := [], trace := [] }

/-- The object URL the browser mints for the n-th createObjectURL call. -/
def mkObjectURL (n : Nat) : String :=
  String.append "blob:nonce-" (toString n)

/-- Embedding of the Blob constructor (new Blob([data], ...) on line 26). -/
def blobNew (parts : List String) (contentType : String) (s : BrowserState) :
    Blob × BrowserState :=
  let b : Blob := { parts := parts, type := contentType }
  (b, { s with trace := s.trace ++ [Event.blobNew b] })

/-- Embedding of URL.createObjectURL (line 27): mints a fresh URL and adds it
to the live object-URL table. -/
def createObjectURL (b : Blob) (s : BrowserState) : String × BrowserState :=
  let url := mkObjectURL s.urlCounter
  (url, { s with
      urlCounter := s.urlCounter + 1
      objectURLs := s.objectURLs ++ [(url, b)]
      trace := s.trace ++ [Event.createObjectURL url] })

/-- Embedding of document.createElement applied to the tag a (line 28):
returns a fresh anchor node with empty attributes. -/
def createElementA (s : BrowserState) : Anchor × BrowserState :=
  let a : Anchor := { id := s.elemCounter, href := "", download := "" }
  (a, { s with
      elemCounter := s.elemCounter + 1
      trace := s.trace ++ [Event.createElement "a" a.id] })

/-- Embedding of document.body.appendChild (line 31). -/
def appendChild (a : Anchor) (s : BrowserState) : BrowserState :=
  { s with
      body := s.body ++ [a]
      trace := s.trace ++ [Event.appendChild a] }

/-- Embedding of link.click() (line 32): the programmatic click that triggers
the browser download action. -/
def click (a : Anchor) (s : BrowserState) : BrowserState :=
  { s with trace := s.trace ++ [Event.click a] }

/-- Embedding of document.body.removeChild (line 33): removes the node with
that DOM identity from the body. -/
def removeChild (a : Anchor) (s : BrowserState) : BrowserState :=
  { s with
      body := s.body.filter (fun x => x.id ≠ a.id)
      trace := s.trace ++ [Event.removeChild a] }

/-- Embedding of URL.revokeObjectURL (line 34): drops the URL from the live
object-URL table. -/
def revokeObjectURL (url : String) (s : BrowserState) : BrowserState :=
  { s with
      objectURLs := s.objectURLs.filter (fun p => p.1 ≠ url)
      trace := s.trace ++ [Event.revokeObjectURL url] }

/-- Embedding of Streamlit.setComponentValue (line 35). -/
def setComponentValue (v : Int) (s : BrowserState) : BrowserState :=
  { s with trace := s.trace ++ [Event.setComponentValue v] }

/-- Embedding of Streamlit.setFrameHeight (line 40). -/
def setFrameHeight (h : Int) (s : BrowserState) : BrowserState :=
  { s with trace := s.trace ++ [Event.setFrameHeight h] }

/-- Embedding of the body of triggerDownload (lines 25-36 of Downloader.tsx),
one Lean line per TypeScript line, in source order. -/
def triggerDownload (data filename content_type : String) (s : BrowserState) :
    BrowserState :=
  let (blob, s) := blobNew [data] content_type s
  let (url, s) := createObjectURL blob s
  let (link, s) := createElementA s
  let link := { link with href := url }
  let link := { link with download := filename }
  let s := appendChild link s
  let s := click link s
  let s := removeChild link s
  let s := revokeObjectURL url s
  let s := setComponentValue 1 s
  s

/-- Embedding of the useEffect callback with empty dependency list
(lines 38-41): it runs once on mount. The call triggerDownload().then() on
line 39 invokes an async function whose body contains no await, so under
JavaScript run-to-completion semantics the whole body of triggerDownload
executes synchronously before Streamlit.setFrameHeight(0) on line 40, and
the .then() attaches no callback. -/
def useEffectBody (data filename content_type : String) (s : BrowserState) :
    BrowserState :=
  setFrameHeight 0 (triggerDownload data filename content_type s)

/-- A Streamlit theme object; the component receives it and ignores it, so
only its presence matters. Modelled with the fields the host sends. -/
structure Theme where
  base : String
  primaryColor : String
deriving DecidableEq, Repr

/-- The args record passed from the Python side (line 22). -/
structure Args where
  data : String
  filename : String
  content_type : String
deriving DecidableEq, Repr

/-- The inline style of the div returned by the component (line 44). -/
structure DivStyle where
  visibility : String
  height : Nat
  width : Nat
  padding : Nat
  margin : Nat
deriving DecidableEq, Repr

/-- The element rendered by the Downloader component (lines 43-45): a single
div with visibility hidden and zero height, width, padding and margin.
It depends on none of the props. -/
def downloaderRender (_args : Args) (_disabled : Bool) (_theme : Theme) :
    DivStyle :=
  { visibility := "hidden", height := 0, width := 0, padding := 0, margin := 0 }

/-- The effects of mounting the Downloader component with the given props
(lines 20-41): the useEffect callback runs once with the destructured args. -/
def downloaderMount (args : Args) (_disabled : Bool) (_theme : Theme)
    (s : BrowserState) : BrowserState :=
  useEffectBody args.data args.filename args.content_type s

/-- Whether an event is a programmatic click (a download action). -/
def Event.isClick : Event → Bool
  | Event.click _ => true
  | _ => false

/-- The number of download actions (clicks) in a trace. -/
def clickCount (tr : List Event) : Nat :=
  (tr.filter Event.isClick).length

/-- The anchors clicked in a trace, in order. -/
def clickedAnchors (tr : List Event) : List Anchor :=
  tr.filterMap fun e =>
    match e with
    | Event.click a => some a
    | _ => none

/-- The blobs constructed in a trace, in order. -/
def createdBlobs (tr : List Event) : List Blob :=
  tr.filterMap fun e =>
    match e with
    | Event.blobNew b => some b
    | _ => none

/-- The values reported to the Streamlit host in a trace, in order. -/
def reportedValues (tr : List Event) : List Int :=
  tr.filterMap fun e =>
    match e with
    | Event.setComponentValue v => some v
    | _ => none

/-- The frame heights requested from the Streamlit host in a trace. -/
def frameHeightRequests (tr : List Event) : List Int :=
  tr.filterMap fun e =>
    match e with
    | Event.setFrameHeight h => some h
    | _ => none

/-- The eight API calls one run of triggerDownload makes, in source order,
as a function of the inputs and the fresh-name counters at entry. -/
def downloadEvents (data filename content_type : String)
    (urlCtr elemCtr : Nat) : List Event :=
  let url := mkObjectURL urlCtr
  let link : Anchor := { id := elemCtr, href := url, download := filename }
  [ Event.blobNew { parts := [data], type := content_type },
    Event.createObjectURL url,
    Event.createElement "a" elemCtr,
    Event.appendChild link,
    Event.click link,
    Event.removeChild link,
    Event.revokeObjectURL url,
    Event.setComponentValue 1 ]

theorem triggerDownload_trace (d f c : String) (s : BrowserState) :
    (triggerDownload d f c s).trace =
      s.trace ++ downloadEvents d f c s.urlCounter s.elemCounter := by
  simp [triggerDownload, downloadEvents, blobNew, createObjectURL,
    createElementA, appendChild, click, removeChild, revokeObjectURL,
    setComponentValue]

theorem triggerDownload_objectURLs (d f c : String) (s : BrowserState) :
    (triggerDownload d f c s).objectURLs =
      (s.objectURLs ++ [(mkObjectURL s.urlCounter, (⟨[d], c⟩ : Blob))]).filter
        (fun p => p.1 ≠ mkObjectURL s.urlCounter) := by
  simp [triggerDownload, blobNew, createObjectURL, createElementA,
    appendChild, click, removeChild, revokeObjectURL, setComponentValue]

theorem triggerDownload_body (d f c : String) (s : BrowserState) :
    (triggerDownload d f c s).body =
      (s.body ++ [(⟨s.elemCounter, mkObjectURL s.urlCounter, f⟩ : Anchor)]).filter
        (fun x => x.id ≠ s.elemCounter) := by
  simp [triggerDownload, blobNew, createObjectURL, createElementA,
    appendChild, click, removeChild, revokeObjectURL, setComponentValue]

/-- Which browser/Streamlit API calls throw during one run of
triggerDownload, one flag per call site in source order. -/
structure FailureProfile where
  blobFails : Bool
  createURLFails : Bool
  createElementFails : Bool
  appendFails : Bool
  clickFails : Bool
  removeFails : Bool
  revokeFails : Bool
  setValueFails : Bool
deriving DecidableEq, Repr

/-- Embedding of triggerDownload in a world where any of its API calls may
throw. The source body (lines 25-36) contains no try/catch, so the first
throwing call aborts the remaining lines and the exception escapes the
function; the returned Bool is true exactly when an exception escaped.
A throwing call is modelled as performing no effect. -/
def triggerDownloadExc (p : FailureProfile) (data filename content_type : String)
    (s : BrowserState) : BrowserState × Bool :=
  if p.blobFails then (s, true) else
  let (blob, s) := blobNew [data] content_type s
  if p.createURLFails then (s, true) else
  let (url, s) := createObjectURL blob s
  if p.createElementFails then (s, true) else
  let (link, s) := createElementA s
  let link := { link with href := url }
  let link := { link with download := filename }
  if p.appendFails then (s, true) else
  let s := appendChild link s
  if p.clickFails then (s, true) else
  let s := click link s
  if p.removeFails then (s, true) else
  let s := removeChild link s
  if p.revokeFails then (s, true) else
  let s := revokeObjectURL url s
  if p.setValueFails then (s, true) else
  (setComponentValue 1 s, false)

/-- The all-succeed profile: no API call throws. -/
def noFailure : FailureProfile :=
  { blobFails := false, createURLFails := false, createElementFails := false,
    appendFails := false, clickFails := false, removeFails := false,
    revokeFails := false, setValueFails := false }

theorem triggerDownloadExc_noFailure (d f c : String) (s : BrowserState) :
    triggerDownloadExc noFailure d f c s = (triggerDownload d f c s, false) := by
  simp [triggerDownloadExc, noFailure, triggerDownload]

/-- Claim C1: for every valid (data, filename, content_type) argument triple,
and any display flags and prior browser state, mounting the component
triggers exactly one download action: the number of programmatic clicks on
synthesized anchors grows by exactly one per mount. -/
theorem C1_exactly_one_download_per_mount (args : Args) (disabled : Bool)
    (theme : Theme) (s : BrowserState) :
    clickCount (downloaderMount args disabled theme s).trace =
      clickCount s.trace + 1 := by
  simp [downloaderMount, useEffectBody, setFrameHeight, clickCount,
    triggerDownload_trace, downloadEvents, List.filter_append, Event.isClick]

/-- Claim C2: for every invocation of triggerDownload, the object URL minted
for the payload is revoked before the operation finishes, so the live
object-URL table is exactly what it was before the call (no leak across
repeated mounts); moreover the revocation happens after the click and before
the operation's final step (the report to the host), in that order. The
hypothesis states that the minted URL is fresh, which the browser guarantees
for createObjectURL. -/
theorem C2_objectURL_revoked_no_leak (d f c : String) (s : BrowserState)
    (h : ∀ p ∈ s.objectURLs, p.1 ≠ mkObjectURL s.urlCounter) :
    (triggerDownload d f c s).objectURLs = s.objectURLs ∧
    List.Sublist
      [ Event.click ⟨s.elemCounter, mkObjectURL s.urlCounter, f⟩,
        Event.revokeObjectURL (mkObjectURL s.urlCounter),
        Event.setComponentValue 1 ]
      (triggerDownload d f c s).trace := by
  constructor
  · rw [triggerDownload_objectURLs, List.filter_append]
    simp
    intro a b hab
    exact h (a, b) hab
  · rw [triggerDownload_trace]
    refine List.Sublist.trans ?_ (List.sublist_append_right s.trace _)
    simp only [downloadEvents]
    exact ((((((((List.Sublist.slnil.cons₂ _).cons₂ _).cons _).cons₂
      _).cons _).cons _).cons _).cons _)

/-- Witness for C2 at a concrete input: the empty browser state satisfies the
freshness hypothesis and the conclusion holds there. -/
theorem C2_objectURL_revoked_no_leak_witness :
    (∀ p ∈ emptyState.objectURLs, p.1 ≠ mkObjectURL emptyState.urlCounter) ∧
    ((triggerDownload "payload" "file.txt" "text/plain" emptyState).objectURLs =
        emptyState.objectURLs ∧
      List.Sublist
        [ Event.click ⟨emptyState.elemCounter, mkObjectURL emptyState.urlCounter,
            "file.txt"⟩,
          Event.revokeObjectURL (mkObjectURL emptyState.urlCounter),
          Event.setComponentValue 1 ]
        (triggerDownload "payload" "file.txt" "text/plain" emptyState).trace) :=
  ⟨by simp [emptyState],
    C2_objectURL_revoked_no_leak "payload" "file.txt" "text/plain" emptyState
      (by simp [emptyState])⟩

/-- Claim C3: for every input and prior state, the value reported to the host
by a mount is the literal integer 1, independent of the input content: the
list of reported values grows by exactly the one value 1. -/
theorem C3_reported_value_is_literal_one (args : Args) (disabled : Bool)
    (theme : Theme) (s : BrowserState) :
    reportedValues (downloaderMount args disabled theme s).trace =
      reportedValues s.trace ++ [1] := by
  simp [downloaderMount, useEffectBody, setFrameHeight, reportedValues,
    triggerDownload_trace, downloadEvents, List.filterMap_append]

/-- Claim C4: triggerDownload performs its API calls in exactly this order:
construct the blob from the payload, create the object URL for it, create the
anchor, append it to the body, click it, remove it, revoke the URL, and
finally report success to the host. In particular blob construction, URL
creation, click, revocation and host notification occur in that order. -/
theorem C4_step_order (d f c : String) (s : BrowserState) :
    (triggerDownload d f c s).trace =
      s.trace ++
      [ Event.blobNew ⟨[d], c⟩,
        Event.createObjectURL (mkObjectURL s.urlCounter),
        Event.createElement "a" s.elemCounter,
        Event.appendChild ⟨s.elemCounter, mkObjectURL s.urlCounter, f⟩,
        Event.click ⟨s.elemCounter, mkObjectURL s.urlCounter, f⟩,
        Event.removeChild ⟨s.elemCounter, mkObjectURL s.urlCounter, f⟩,
        Event.revokeObjectURL (mkObjectURL s.urlCounter),
        Event.setComponentValue 1 ] := by
  simpa [downloadEvents] using triggerDownload_trace d f c s

/-- Claim C5: the download operation runs exactly once per mount and
synchronously to completion inside the single useEffect callback: the mount's
trace is the prior trace, followed by all eight steps of the operation,
followed by the callback's own final call setFrameHeight 0 — no step of the
operation is deferred past the callback. This rests on JavaScript
run-to-completion semantics: the async body of triggerDownload contains no
await, so it executes synchronously, and the .then() attaches no callback. -/
theorem C5_synchronous_single_run (args : Args) (disabled : Bool)
    (theme : Theme) (s : BrowserState) :
    (downloaderMount args disabled theme s).trace =
      s.trace ++
        downloadEvents args.data args.filename args.content_type
          s.urlCounter s.elemCounter ++
        [Event.setFrameHeight 0] := by
  simp [downloaderMount, useEffectBody, setFrameHeight, triggerDownload_trace]

/-- Claim C6: browser-API failures are not caught or reported: whenever any
API call in the operation throws, the exception escapes the component
uncaught (the component installs no handler and raises no error state of its
own) and no value at all — in particular no error value — is reported to the
host. -/
theorem C6_failures_uncaught_and_unreported (p : FailureProfile)
    (d f c : String) (s : BrowserState)
    (h : p.blobFails = true ∨ p.createURLFails = true ∨
         p.createElementFails = true ∨ p.appendFails = true ∨
         p.clickFails = true ∨ p.removeFails = true ∨
         p.revokeFails = true ∨ p.setValueFails = true) :
    (triggerDownloadExc p d f c s).2 = true ∧
    reportedValues (triggerDownloadExc p d f c s).1.trace =
      reportedValues s.trace := by
  rcases p with ⟨b1, b2, b3, b4, b5, b6, b7, b8⟩
  cases b1 <;> cases b2 <;> cases b3 <;> cases b4 <;> cases b5 <;> cases b6 <;>
    cases b7 <;> cases b8 <;>
    simp_all [triggerDownloadExc, blobNew, createObjectURL, createElementA,
      appendChild, click, removeChild, revokeObjectURL, setComponentValue,
      reportedValues, List.filterMap_append]

/-- A profile in which only the programmatic click throws. -/
def clickFailureProfile : FailureProfile :=
  { noFailure with clickFails := true }

/-- Witness for C6 at a concrete input: with a profile in which the click
throws, the exception escapes and nothing is reported. -/
theorem C6_failures_uncaught_and_unreported_witness :
    (clickFailureProfile.blobFails = true ∨
     clickFailureProfile.createURLFails = true ∨
     clickFailureProfile.createElementFails = true ∨
     clickFailureProfile.appendFails = true ∨
     clickFailureProfile.clickFails = true ∨
     clickFailureProfile.removeFails = true ∨
     clickFailureProfile.revokeFails = true ∨
     clickFailureProfile.setValueFails = true) ∧
    ((triggerDownloadExc clickFailureProfile "d" "f.bin" "text/plain"
        emptyState).2 = true ∧
      reportedValues (triggerDownloadExc clickFailureProfile "d" "f.bin"
        "text/plain" emptyState).1.trace = reportedValues emptyState.trace) :=
  ⟨by decide,
    C6_failures_uncaught_and_unreported clickFailureProfile "d" "f.bin"
      "text/plain" emptyState (by decide)⟩

/-- Claim C7: for every input the rendered output occupies zero visible space
(a hidden div of zero height, width, padding and margin), and the mount asks
the host to render the component at frame height zero. -/
theorem C7_zero_visible_space (args : Args) (disabled : Bool) (theme : Theme)
    (s : BrowserState) :
    downloaderRender args disabled theme =
      { visibility := "hidden", height := 0, width := 0, padding := 0,
        margin := 0 } ∧
    frameHeightRequests (downloaderMount args disabled theme s).trace =
      frameHeightRequests s.trace ++ [0] := by
  refine ⟨rfl, ?_⟩
  simp [downloaderMount, useEffectBody, setFrameHeight, frameHeightRequests,
    triggerDownload_trace, downloadEvents, List.filterMap_append]

/-- Claim C8: the two host-defined display flags (disabled and theme) have no
effect: two invocations with the same args but arbitrary different flag
values produce the same browser effects (hence the same download action and
the same reported value) and the same rendered output. -/
theorem C8_display_flags_no_effect (args : Args) (d1 d2 : Bool)
    (t1 t2 : Theme) (s : BrowserState) :
    downloaderMount args d1 t1 s = downloaderMount args d2 t2 s ∧
    downloaderRender args d1 t1 = downloaderRender args d2 t2 :=
  ⟨rfl, rfl⟩

/-- Claim C9: filename and content_type are used verbatim and unvalidated:
the one anchor clicked by the operation carries the supplied filename string,
unchanged, as its download attribute, and the one blob constructed carries
the supplied content_type string, unchanged, as its MIME type — for every
input string whatsoever. -/
theorem C9_filename_and_type_verbatim (d f c : String) (s : BrowserState) :
    clickedAnchors (triggerDownload d f c s).trace =
      clickedAnchors s.trace ++
        [⟨s.elemCounter, mkObjectURL s.urlCounter, f⟩] ∧
    createdBlobs (triggerDownload d f c s).trace =
      createdBlobs s.trace ++ [⟨[d], c⟩] := by
  constructor <;>
    simp [clickedAnchors, createdBlobs, triggerDownload_trace, downloadEvents,
      List.filterMap_append]

/-- Claim C10: the transient anchor is appended to the document body and
removed from it again before the operation completes: the append and the
remove of that anchor both occur, in that order, and the final body equals
the body before the call, so no element added by the component survives. The
hypothesis states that DOM node identities already in the body are older than
the fresh one, which document.createElement guarantees. -/
theorem C10_transient_anchor_removed (d f c : String) (s : BrowserState)
    (h : ∀ a ∈ s.body, a.id < s.elemCounter) :
    (triggerDownload d f c s).body = s.body ∧
    List.Sublist
      [ Event.appendChild ⟨s.elemCounter, mkObjectURL s.urlCounter, f⟩,
        Event.removeChild ⟨s.elemCounter, mkObjectURL s.urlCounter, f⟩ ]
      (triggerDownload d f c s).trace := by
  constructor
  · rw [triggerDownload_body, List.filter_append]
    simp
    exact fun a ha => Nat.ne_of_lt (h a ha)
  · rw [triggerDownload_trace]
    refine List.Sublist.trans ?_ (List.sublist_append_right s.trace _)
    simp only [downloadEvents]
    exact ((((((((List.Sublist.slnil.cons _).cons _).cons₂ _).cons _).cons₂
      _).cons _).cons _).cons _)

/-- Witness for C10 at a concrete input: the empty browser state satisfies
the identity-freshness hypothesis and the conclusion holds there. -/
theorem C10_transient_anchor_removed_witness :
    (∀ a ∈ emptyState.body, a.id < emptyState.elemCounter) ∧
    ((triggerDownload "payload" "file.txt" "text/plain" emptyState).body =
        emptyState.body ∧
      List.Sublist
        [ Event.appendChild ⟨emptyState.elemCounter,
            mkObjectURL emptyState.urlCounter, "file.txt"⟩,
          Event.removeChild ⟨emptyState.elemCounter,
            mkObjectURL emptyState.urlCounter, "file.txt"⟩ ]
        (triggerDownload "payload" "file.txt" "text/plain" emptyState).trace) :=
  ⟨by simp [emptyState],
    C10_transient_anchor_removed "payload" "file.txt" "text/plain" emptyState
      (by simp [emptyState])⟩

end StreamlitDownloader
